import Mathlib

/-!
Shallow embedding of the OneLogin MFA session plugin
(`lib/authenticator.py`, `lib/exceptions.py`, `lib/plugin.py`).

The external OneLogin API client is modelled as a record of scripted
responses (`OneLoginClient`); `Option` return values model provider calls
that may fail (`None` in Python).  Python exceptions are modelled with
`Except PluginError`.  Wall-clock time in the push-polling loop is modelled
as a natural number of seconds that advances only by the poll-interval
sleeps; the poll script is indexed by the number of polls already made.
-/

namespace OneLogin

/-- `onelogin.api.models.user.User`, restricted to the `id` field the plugin
reads (`_get_user` queries with `"fields": "id"`). -/
structure User where
  id : Nat
deriving Repr, DecidableEq

/-- `onelogin.api.models.otp_device.OTP_Device`, restricted to the fields the
plugin reads: `id`, `user_display_name` and the `default` flag. -/
structure OTP_Device where
  id : Nat
  user_display_name : String
  default : Bool
deriving Repr, DecidableEq

/-- `onelogin.api.models.factor_enrollment_response.FactorEnrollmentResponse`,
restricted to the `id` field the polling loop reads. -/
structure FactorEnrollmentResponse where
  id : Nat
deriving Repr, DecidableEq

/-- The exception hierarchy of `lib/exceptions.py`, flattened into one
inductive.  `KeyError` models the Python builtin raised by `dict.pop` in
`Plugin._finish_factor_selection`; the others are the classes of
`lib/exceptions.py`, each carrying its message string. -/
inductive PluginError where
  | OneLoginClientError (msg : String)
  | UserNotFound (msg : String)
  | FactorNotFound (msg : String)
  | TimeOutError (msg : String)
  | APIResponseError (msg : String)
  | KeyError (key : String)
deriving Repr, DecidableEq

/-- The Directory Client (`OneLoginClient`) together with the configured
lookup attribute the `Authenticator` was constructed with.  Each field
scripts a provider call; `none` models a failed call (Python `None`).
`verify_factor_poll` additionally takes the number of polls already made, so
that a script can answer differently on successive polls of one activation. -/
structure OneLoginClient where
  user_attribute : String
  get_users : String → Option (List User)
  get_enrolled_factors : Nat → Option (List OTP_Device)
  verify_factor : Nat → Nat → String → Bool
  activate_factor : Nat → Nat → Option Nat → Option FactorEnrollmentResponse
  verify_factor_poll : Nat → Nat → Nat → String
  error_description : String

/-- `Authenticator.PUSH_VERIFICATION_POLL_FREQUENCY` (seconds). -/
def PUSH_VERIFICATION_POLL_FREQUENCY : Nat := 5

/-- `Authenticator.PUSH_VERIFICATION_POLL_TIMEOUT` (seconds). -/
def PUSH_VERIFICATION_POLL_TIMEOUT : Nat := 60

/-- `Authenticator._get_user`.  Python `users.pop()` removes the last
element; the guards ensure the list has exactly one element there, so
`getLastD` with a dummy default is exact. -/
def get_user (c : OneLoginClient) (username : String) : Except PluginError User :=
  match c.get_users username with
  | none => .error (.APIResponseError c.error_description)
  | some users =>
    if users.length > 1 then
      .error (.APIResponseError
        ("More than one user found for user: " ++ username ++
          " based on attribute: " ++ c.user_attribute))
    else if users.length < 1 then
      .error (.UserNotFound
        ("No user found for user: " ++ username ++
          " based on attribute: " ++ c.user_attribute))
    else
      .ok (users.getLastD ⟨0⟩)

/-- `Authenticator.get_enrolled_factors`. -/
def get_enrolled_factors (c : OneLoginClient) (username : String) :
    Except PluginError (List OTP_Device) := do
  let user ← get_user c username
  match c.get_enrolled_factors user.id with
  | none => .error (.APIResponseError c.error_description)
  | some factors => .ok factors

/-- `Authenticator._get_default_factor`.  `next((f for f in factors if
f.default), None)` is the first factor with the `default` flag set. -/
def get_default_factor (c : OneLoginClient) (username : String) :
    Except PluginError OTP_Device := do
  let factors ← get_enrolled_factors c username
  match factors.find? (fun f => f.default) with
  | none => .error (.FactorNotFound "No default MFA factor found")
  | some f => .ok f

/-- `Authenticator._activate_factor`. -/
def activate_factor (c : OneLoginClient) (user_id factor_id : Nat)
    (expires_in : Option Nat) : Except PluginError FactorEnrollmentResponse :=
  match c.activate_factor user_id factor_id expires_in with
  | none => .error (.APIResponseError c.error_description)
  | some response => .ok response

/-- The Python truthiness fallback `factor_id or self._get_default_factor(username).id`
shared by `otp_authenticate` and `push_authenticate`: `None` and `0` are
falsy, so both fall back to the default factor's id. -/
def resolve_factor_id (c : OneLoginClient) (username : String)
    (factor_id : Option Nat) : Except PluginError Nat :=
  match factor_id with
  | some n => if n = 0 then (get_default_factor c username).map OTP_Device.id else .ok n
  | none => (get_default_factor c username).map OTP_Device.id

/-- `Authenticator.otp_authenticate`. -/
def otp_authenticate (c : OneLoginClient) (username otp : String)
    (factor_id : Option Nat) : Except PluginError Bool := do
  let user ← get_user c username
  let fid ← resolve_factor_id c username factor_id
  .ok (c.verify_factor user.id fid otp)

/-- The `while expires_at > datetime.now()` loop of
`Authenticator.push_authenticate`.  `now` is the model clock in seconds
(advanced only by the `time.sleep` between polls), `pollIdx` counts the polls
already made. -/
def push_poll_loop (c : OneLoginClient) (user_id activation_id : Nat)
    (expires_at now pollIdx : Nat) : Except PluginError Bool :=
  if now < expires_at then
    let status := c.verify_factor_poll user_id activation_id pollIdx
    if status = "pending" then
      push_poll_loop c user_id activation_id expires_at
        (now + PUSH_VERIFICATION_POLL_FREQUENCY) (pollIdx + 1)
    else if status = "accepted" then .ok true
    else if status = "rejected" then .ok false
    else .error (.APIResponseError ("Push verification status not recognized: " ++ status))
  else .error (.TimeOutError "Push verification timed out")
termination_by expires_at - now
decreasing_by simp [PUSH_VERIFICATION_POLL_FREQUENCY]; omega

/-- `Authenticator.push_authenticate`.  The model clock starts at 0, so
`expires_at = datetime.now() + timedelta(seconds=60)` is
`PUSH_VERIFICATION_POLL_TIMEOUT`. -/
def push_authenticate (c : OneLoginClient) (username : String)
    (factor_id : Option Nat) : Except PluginError Bool := do
  let user ← get_user c username
  let fid ← resolve_factor_id c username factor_id
  let activation ← activate_factor c user.id fid (some PUSH_VERIFICATION_POLL_TIMEOUT)
  push_poll_loop c user.id activation.id PUSH_VERIFICATION_POLL_TIMEOUT 0 0

/-! ## Session Controller (`lib/plugin.py`) -/

/-- The session decision type emitted by the plugin:
`AAResponse.accept(reason)`, `AAResponse.deny(deny_reason)`,
`AAResponse.need_info(question, key)`. -/
inductive AAResponse where
  | accept (reason : String)
  | deny (deny_reason : String)
  | need_info (question : String) (key : String)
deriving Repr, DecidableEq

/-- Whether a decision is a need-more-input transition. -/
def AAResponse.isNeedInfo : AAResponse → Bool
  | .need_info _ _ => true
  | _ => false

/-- The session-scoped mutable state of `Plugin`: the three cookie
properties, plus the connection's key/value store (an association list with
the first binding of a key authoritative, mirroring a Python dict). -/
structure PluginState where
  factor_selection_in_progress : Bool
  enrolled_factors : List (Nat × String)
  user_selected_factor_id : Option Nat
  key_value_pairs : List (String × String)
deriving Repr, DecidableEq

/-- `Plugin.FACTOR_SELECTION_SUPPORTED_PROTOCOLS`. -/
def FACTOR_SELECTION_SUPPORTED_PROTOCOLS : List String := ["ssh", "telnet"]

/-- Digits of a decimal literal, as Python `int` reads them after sign and
whitespace handling: nonempty and all ASCII digits. -/
def decimalDigits (cs : List Char) : Option Nat :=
  if cs.isEmpty then none
  else if cs.all Char.isDigit then
    some (cs.foldl (fun acc c => acc * 10 + (c.toNat - 48)) 0)
  else none

/-- ASCII whitespace as Python `int` ignores it around a literal. -/
def isPySpace (c : Char) : Bool :=
  c = ' ' || c = '\t' || c = '\n' || c = '\r' || c.toNat = 11 || c.toNat = 12

/-- Strip leading and trailing whitespace from a character list. -/
def stripSpaces (cs : List Char) : List Char :=
  ((cs.dropWhile isPySpace).reverse.dropWhile isPySpace).reverse

/-- Model of the Python builtin `int(s)` on a string: surrounding whitespace
stripped, optional single sign, then a nonempty decimal literal; `none`
models the `ValueError` raised otherwise.  (Digit-group underscores, which
Python also accepts, are not modelled; no input in this development uses
them.) -/
def pyInt (s : String) : Option Int :=
  match stripSpaces s.toList with
  | '-' :: rest => (decimalDigits rest).map (fun n => -(n : Int))
  | '+' :: rest => (decimalDigits rest).map (fun n => (n : Int))
  | cs => (decimalDigits cs).map (fun n => (n : Int))

/-- Python `dict.pop(k)`: the value and the store without the key, or `none`
for the `KeyError` when the key is absent. -/
def kvPop (kvs : List (String × String)) (k : String) :
    Option (String × List (String × String)) :=
  match kvs.lookup k with
  | none => none
  | some v => some (v, kvs.eraseP (fun p => p.1 = k))

/-- Modelled from the spec: `AAPlugin._ask_mfa_password`, inherited from the
external `safeguard.sessions.plugin` framework and absent from this
repository's sources.  The spec says a successful factor selection proceeds
"to request the MFA credential (emit a need-more-input transition)", so it
is modelled as a need-more-input decision asking for the `otp` answer. -/
def ask_mfa_password : AAResponse := .need_info "Enter your MFA password: " "otp"

/-- The loop body of `Plugin._factor_selection_prompt`, with `position` the
1-based enumeration counter. -/
def factor_selection_prompt_lines (position : Nat) :
    List (Nat × String) → String
  | [] => ""
  | factor :: rest =>
    toString position ++ ") " ++ factor.2 ++ "\n" ++
      factor_selection_prompt_lines (position + 1) rest

/-- `Plugin._factor_selection_prompt` as a function of the
`_enrolled_factors` cookie. -/
def factor_selection_prompt (enrolled_factors : List (Nat × String)) : String :=
  factor_selection_prompt_lines 1 enrolled_factors ++ "Select a factor: "

/-- `Plugin._init_factor_selection`.  Returns the decision (or the pending
exception) together with the updated session state. -/
def init_factor_selection (c : OneLoginClient) (mfa_identity : String)
    (st : PluginState) : Except PluginError AAResponse × PluginState :=
  match get_enrolled_factors c mfa_identity with
  | .error e => (.error e, st)
  | .ok enrolled_factors =>
    if enrolled_factors.isEmpty then (.ok (.deny "No factors found"), st)
    else
      let fs := enrolled_factors.map (fun f => (f.id, f.user_display_name))
      (.ok (.need_info (factor_selection_prompt fs) "user_factor_selection"),
        { st with enrolled_factors := fs, factor_selection_in_progress := true })

/-- `Plugin._finish_factor_selection`.  A missing `"user_factor_selection"`
answer makes `int(None)` raise `TypeError`, an unparsable one raises
`ValueError`, `index < 0` raises `ValueError`, and an out-of-range index
raises `IndexError`; all are caught and answered with the
"Invalid selection" deny.  The unconditional `key_value_pairs.pop("otp")`
sits outside that `try`, so its `KeyError` escapes. -/
def finish_factor_selection (st : PluginState) :
    Except PluginError AAResponse × PluginState :=
  let st := { st with factor_selection_in_progress := false }
  match (st.key_value_pairs.lookup "user_factor_selection").bind pyInt with
  | none => (.ok (.deny "Invalid selection"), st)
  | some n =>
    let index : Int := n - 1
    if index < 0 then (.ok (.deny "Invalid selection"), st)
    else
      match st.enrolled_factors.get? index.toNat with
      | none => (.ok (.deny "Invalid selection"), st)
      | some factor =>
        let st := { st with user_selected_factor_id := some factor.1 }
        match kvPop st.key_value_pairs "otp" with
        | none => (.error (.KeyError "otp"), st)
        | some popped => (.ok ask_mfa_password, { st with key_value_pairs := popped.2 })

/-- `Plugin._run_factor_selection_command`.  `factor_selection_enabled` is
the `enable_factor_selection` configuration flag; `protocol` is
`connection.protocol`. -/
def run_factor_selection_command (factor_selection_enabled : Bool)
    (protocol : String) (c : OneLoginClient) (mfa_identity : String)
    (st : PluginState) : Except PluginError AAResponse × PluginState :=
  if !factor_selection_enabled then
    (.ok (.deny "Factor selection not available"), st)
  else if !(FACTOR_SELECTION_SUPPORTED_PROTOCOLS.contains protocol) then
    (.ok (.deny "Factor selection not supported"), st)
  else init_factor_selection c mfa_identity st

/-- Python truthiness of the optional `mfa_password` string: `None` and the
empty string are falsy. -/
def truthy : Option String → Bool
  | none => false
  | some s => !s.isEmpty

/-- The `try` body of `Plugin.do_authenticate`: the four dialogue steps,
with any raised exception returned as `.error`.  `mfa_identity` and
`mfa_password` are the framework-supplied per-turn inputs. -/
def do_authenticate_body (factor_selection_enabled : Bool) (protocol : String)
    (c : OneLoginClient) (mfa_identity : String) (mfa_password : Option String)
    (st : PluginState) : Except PluginError AAResponse × PluginState :=
  if st.factor_selection_in_progress then finish_factor_selection st
  else if truthy mfa_password then
    if mfa_password = some "!select" then
      run_factor_selection_command factor_selection_enabled protocol c mfa_identity st
    else
      match otp_authenticate c mfa_identity (mfa_password.getD "") st.user_selected_factor_id with
      | .error e => (.error e, st)
      | .ok true => (.ok (.accept "OTP authentication successful"), st)
      | .ok false => (.ok (.deny "OTP authentication failed"), st)
  else
    match push_authenticate c mfa_identity st.user_selected_factor_id with
    | .error e => (.error e, st)
    | .ok true => (.ok (.accept "Push verification successful"), st)
    | .ok false => (.ok (.deny "Push verification failed"), st)

/-- `Plugin.do_authenticate`: the `try`/`except Exception` wrapper that
logs any exception and falls through to the generic deny (spelled
"An error occured" in the source).  State mutations made before the
exception persist. -/
def do_authenticate (factor_selection_enabled : Bool) (protocol : String)
    (c : OneLoginClient) (mfa_identity : String) (mfa_password : Option String)
    (st : PluginState) : AAResponse × PluginState :=
  match do_authenticate_body factor_selection_enabled protocol c mfa_identity mfa_password st with
  | (.ok response, st') => (response, st')
  | (.error _, st') => (.deny "An error occured", st')

/-! ## Concrete scripted clients, used by the closed witness theorems -/

/-- A scripted client: one user list answer, one factor list answer, a fixed
OTP verdict, one activation answer, and a poll script indexed by poll count. -/
def mkClient (users : Option (List User)) (factors : Option (List OTP_Device))
    (verify : Bool) (activation : Option FactorEnrollmentResponse)
    (poll : Nat → String) : OneLoginClient where
  user_attribute := "username"
  get_users := fun _ => users
  get_enrolled_factors := fun _ => factors
  verify_factor := fun _ _ _ => verify
  activate_factor := fun _ _ _ => activation
  verify_factor_poll := fun _ _ i => poll i
  error_description := "provider error detail"

/-- Two enrolled devices; the second is the default. -/
def twoDevices : List OTP_Device :=
  [⟨7, "Device A", false⟩, ⟨9, "Device B", true⟩]

/-- Client answering with one user (id 42) and the two devices. -/
def clientOk (verify : Bool) (poll : Nat → String) : OneLoginClient :=
  mkClient (some [⟨42⟩]) (some twoDevices) verify (some ⟨1000⟩) poll

/-- Client whose user query matches nobody. -/
def clientNoUser : OneLoginClient :=
  mkClient (some []) (some twoDevices) true (some ⟨1000⟩) (fun _ => "accepted")

/-- Client whose user query matches two users. -/
def clientTwoUsers : OneLoginClient :=
  mkClient (some [⟨1⟩, ⟨2⟩]) (some twoDevices) true (some ⟨1000⟩) (fun _ => "accepted")

/-- Client whose user query itself fails. -/
def clientDown : OneLoginClient :=
  mkClient none (some twoDevices) true (some ⟨1000⟩) (fun _ => "accepted")

/-- Client with a single enrolled factor that is not marked default. -/
def clientNoDefault : OneLoginClient :=
  mkClient (some [⟨42⟩]) (some [⟨7, "Device A", false⟩]) true (some ⟨1000⟩)
    (fun _ => "accepted")

/-! ## Helper lemmas -/

/-- `List.find?` returns the element at the first position satisfying the
predicate. -/
theorem find?_eq_some_of_first {α : Type} (p : α → Bool) :
    ∀ (l : List α) (i : Nat) (f : α), l.get? i = some f → p f = true →
      (∀ j g, j < i → l.get? j = some g → p g = false) → l.find? p = some f
  | [], i, f, h, _, _ => by simp at h
  | a :: l, 0, f, h, hp, _ => by
    simp at h
    subst h
    simp [List.find?_cons, hp]
  | a :: l, i + 1, f, h, hp, hmin => by
    have ha : p a = false := hmin 0 a (Nat.succ_pos i) rfl
    simp [List.find?_cons, ha]
    exact find?_eq_some_of_first p l i f (by simpa using h) hp
      (fun j g hj hg => hmin (j + 1) g (Nat.succ_lt_succ hj) (by simpa using hg))

/-! ## Claim theorems -/

/-- C4: user resolution fails with `UserNotFound` on zero matches, with the
"more than one user" `APIResponseError` (the `AmbiguousUser` specialization)
on multiple matches, with `APIResponseError` carrying the client's error
description when the provider call itself fails, and returns the single
matched user otherwise. -/
theorem C4_resolve_user (c : OneLoginClient) (username : String) :
    (c.get_users username = some [] →
      get_user c username = .error (.UserNotFound
        ("No user found for user: " ++ username ++ " based on attribute: " ++
          c.user_attribute))) ∧
    (∀ users, c.get_users username = some users → 1 < users.length →
      get_user c username = .error (.APIResponseError
        ("More than one user found for user: " ++ username ++
          " based on attribute: " ++ c.user_attribute))) ∧
    (c.get_users username = none →
      get_user c username = .error (.APIResponseError c.error_description)) ∧
    (∀ u, c.get_users username = some [u] → get_user c username = .ok u) := by
  refine ⟨fun h => ?_, fun users h hlen => ?_, fun h => ?_, fun u h => ?_⟩
  · simp [get_user, h]
  · simp [get_user, h, hlen]
  · simp [get_user, h]
  · simp [get_user, h]

/-- C4 witness: the four outcomes at concrete scripted clients. -/
theorem C4_resolve_user_witness :
    get_user clientNoUser "alice" = .error (.UserNotFound
      "No user found for user: alice based on attribute: username") ∧
    get_user clientTwoUsers "alice" = .error (.APIResponseError
      "More than one user found for user: alice based on attribute: username") ∧
    get_user clientDown "alice" = .error (.APIResponseError "provider error detail") ∧
    get_user (clientOk true (fun _ => "accepted")) "alice" = .ok ⟨42⟩ :=
  ⟨(C4_resolve_user clientNoUser "alice").1 rfl,
   (C4_resolve_user clientTwoUsers "alice").2.1 [⟨1⟩, ⟨2⟩] rfl (by decide),
   (C4_resolve_user clientDown "alice").2.2.1 rfl,
   (C4_resolve_user (clientOk true (fun _ => "accepted")) "alice").2.2.2 ⟨42⟩ rfl⟩

/-- C6: the default factor is the first enrolled factor whose `default` flag
is set, and `FactorNotFound` is raised when no enrolled factor is marked
default (in particular when the list is empty). -/
theorem C6_default_factor (c : OneLoginClient) (username : String)
    (factors : List OTP_Device)
    (hfs : get_enrolled_factors c username = .ok factors) :
    ((∀ f ∈ factors, f.default = false) →
      get_default_factor c username =
        .error (.FactorNotFound "No default MFA factor found")) ∧
    (∀ i f, factors.get? i = some f → f.default = true →
      (∀ j g, j < i → factors.get? j = some g → g.default = false) →
      get_default_factor c username = .ok f) := by
  constructor
  · intro hnone
    have hfind : factors.find? (fun f => f.default) = none :=
      List.find?_eq_none.mpr (fun x hx => by simp [hnone x hx])
    simp [get_default_factor, hfs, bind, Except.bind, hfind]
  · intro i f hi hf hmin
    have hfind : factors.find? (fun f => f.default) = some f :=
      find?_eq_some_of_first _ factors i f hi hf hmin
    simp [get_default_factor, hfs, bind, Except.bind, hfind]

/-- C6 witness: no-default client fails, and with `twoDevices` (default in
second position) the default factor is Device B. -/
theorem C6_default_factor_witness :
    get_default_factor clientNoDefault "alice" =
      .error (.FactorNotFound "No default MFA factor found") ∧
    get_default_factor (clientOk true (fun _ => "accepted")) "alice" =
      .ok ⟨9, "Device B", true⟩ :=
  ⟨(C6_default_factor clientNoDefault "alice" [⟨7, "Device A", false⟩] rfl).1
      (by intro f hf; simp at hf; simp [hf]),
   (C6_default_factor (clientOk true (fun _ => "accepted")) "alice" twoDevices rfl).2
      1 ⟨9, "Device B", true⟩ rfl rfl
      (by
        intro j g hj hg
        have hj0 : j = 0 := by omega
        subst hj0
        simp [twoDevices] at hg
        simp [← hg])⟩

/-- C7: OTP verification returns exactly the single boolean the client
reports for the (userId, factorId, code) triple — one `verify_factor` call,
no retry — and an absent factor id falls back to the default factor's id. -/
theorem C7_otp_authenticate (c : OneLoginClient) (username otp : String)
    (user : User) (hu : get_user c username = .ok user) :
    (∀ n, n ≠ 0 → otp_authenticate c username otp (some n) =
      .ok (c.verify_factor user.id n otp)) ∧
    (∀ f, get_default_factor c username = .ok f →
      otp_authenticate c username otp none =
        .ok (c.verify_factor user.id f.id otp)) := by
  constructor
  · intro n hn
    simp [otp_authenticate, hu, resolve_factor_id, hn, bind, Except.bind]
  · intro f hf
    simp [otp_authenticate, hu, resolve_factor_id, hf, bind, Except.bind, Except.map]

/-- C7 witness: a client scripted to report `false` yields exactly `false`
for an explicit factor id, and the default-factor fallback reports the
scripted `true` on another client. -/
theorem C7_otp_authenticate_witness :
    otp_authenticate (clientOk false (fun _ => "accepted")) "alice" "1234" (some 7) =
      .ok false ∧
    otp_authenticate (clientOk true (fun _ => "accepted")) "alice" "1234" none =
      .ok true :=
  ⟨(C7_otp_authenticate (clientOk false (fun _ => "accepted")) "alice" "1234" ⟨42⟩ rfl).1
      7 (by decide),
   (C7_otp_authenticate (clientOk true (fun _ => "accepted")) "alice" "1234" ⟨42⟩ rfl).2
      ⟨9, "Device B", true⟩ rfl⟩

/-- C9: a supplied factor id of 0 is falsy in the Python fallback
`factor_id or default`, so both verification entry points treat it exactly
like an absent factor id. -/
theorem C9_factor_id_zero (c : OneLoginClient) (username otp : String) :
    otp_authenticate c username otp (some 0) = otp_authenticate c username otp none ∧
    push_authenticate c username (some 0) = push_authenticate c username none := by
  constructor
  · simp [otp_authenticate, resolve_factor_id]
  · simp [push_authenticate, resolve_factor_id]

/-- Spec-side restatement of the factor-selection prompt: one
`"<position>) <displayName>\n"` line per factor, positions 1-based in
insertion order, followed by the selection prompt line.  Compared with the
source-side `factor_selection_prompt` in C5. -/
def spec_selection_prompt (factors : List (Nat × String)) : String :=
  (((List.range factors.length).zipWith
      (fun i f => toString (i + 1) ++ ") " ++ f.2 ++ "\n") factors).foldr (· ++ ·) "")
    ++ "Select a factor: "

/-- The prompt's line block, with the running position generalized. -/
theorem factor_selection_prompt_lines_eq (l : List (Nat × String)) :
    ∀ pos : Nat,
      factor_selection_prompt_lines (pos + 1) l =
        ((List.range l.length).zipWith
          (fun i f => toString (pos + i + 1) ++ ") " ++ f.2 ++ "\n") l).foldr (· ++ ·) "" := by
  induction l with
  | nil => intro pos; simp [factor_selection_prompt_lines]
  | cons a l ih =>
    intro pos
    rw [factor_selection_prompt_lines, List.length_cons, List.range_succ_eq_map,
      List.zipWith_cons_cons, List.zipWith_map_left, List.foldr_cons]
    have harg : (fun (i : Nat) (f : Nat × String) =>
        toString (pos + i.succ + 1) ++ ") " ++ f.2 ++ "\n") =
        (fun i (f : Nat × String) => toString (pos + 1 + i + 1) ++ ") " ++ f.2 ++ "\n") := by
      funext i f
      rw [show pos + i.succ + 1 = pos + 1 + i + 1 from by omega]
    rw [harg, ih (pos + 1)]

/-- C5: the factor-selection prompt is the 1-based enumeration of the
enrolled factors' display names, one `"<position>) <displayName>"` line
each in insertion order, followed by the selection prompt line; on
`[(7, "Device A"), (9, "Device B")]` it is exactly
`"1) Device A\n2) Device B\nSelect a factor: "`. -/
theorem C5_factor_selection_prompt :
    (∀ factors : List (Nat × String),
      factor_selection_prompt factors = spec_selection_prompt factors) ∧
    factor_selection_prompt [(7, "Device A"), (9, "Device B")] =
      "1) Device A\n2) Device B\nSelect a factor: " := by
  constructor
  · intro factors
    rw [factor_selection_prompt, spec_selection_prompt,
      show (1 : Nat) = 0 + 1 from rfl, factor_selection_prompt_lines_eq factors 0]
    simp
  · rfl

/-- Skipping a block of `pending` polls: `n` consecutive `pending` answers
advance the model clock by `5 * n` and the poll counter by `n`. -/
theorem push_poll_loop_skip_pending (c : OneLoginClient) (uid aid : Nat) :
    ∀ (n now k : Nat),
      (∀ i, i < n → c.verify_factor_poll uid aid (k + i) = "pending") →
      now + 5 * n ≤ 60 →
      push_poll_loop c uid aid 60 now k =
        push_poll_loop c uid aid 60 (now + 5 * n) (k + n)
  | 0, now, k, _, _ => by simp
  | n + 1, now, k, hp, hle => by
    have hlt : now < 60 := by omega
    have h0 : c.verify_factor_poll uid aid k = "pending" := by
      have := hp 0 (Nat.succ_pos n)
      simpa using this
    rw [push_poll_loop]
    simp only [hlt, if_true, h0, PUSH_VERIFICATION_POLL_FREQUENCY, if_pos]
    rw [push_poll_loop_skip_pending c uid aid n (now + 5) (k + 1)
        (fun i hi => by
          have h := hp (i + 1) (by omega)
          rwa [show k + (i + 1) = k + 1 + i from by omega] at h)
        (by omega),
      show now + 5 + 5 * n = now + 5 * (n + 1) from by omega,
      show k + 1 + n = k + (n + 1) from by omega]

/-- C2: push verification starts an activation whose expiry is the poll
timeout (60 s) and polls every 5 s: `accepted` yields `true`, `rejected`
yields `false` (a single poll when rejected immediately), an unrecognized
status fails with `APIResponseError`, and twelve straight `pending` answers
exhaust the deadline and fail with `TimeOutError`. -/
theorem C2_push_authenticate (c : OneLoginClient) (username : String)
    (factor_id : Option Nat) (user : User) (fid : Nat)
    (activation : FactorEnrollmentResponse)
    (hu : get_user c username = .ok user)
    (hf : resolve_factor_id c username factor_id = .ok fid)
    (ha : c.activate_factor user.id fid (some PUSH_VERIFICATION_POLL_TIMEOUT) =
      some activation) :
    (∀ N, N < 12 →
      (∀ i, i < N → c.verify_factor_poll user.id activation.id i = "pending") →
      c.verify_factor_poll user.id activation.id N = "accepted" →
      push_authenticate c username factor_id = .ok true) ∧
    (∀ N, N < 12 →
      (∀ i, i < N → c.verify_factor_poll user.id activation.id i = "pending") →
      c.verify_factor_poll user.id activation.id N = "rejected" →
      push_authenticate c username factor_id = .ok false) ∧
    (∀ N s, N < 12 →
      (∀ i, i < N → c.verify_factor_poll user.id activation.id i = "pending") →
      c.verify_factor_poll user.id activation.id N = s →
      s ≠ "pending" → s ≠ "accepted" → s ≠ "rejected" →
      push_authenticate c username factor_id =
        .error (.APIResponseError ("Push verification status not recognized: " ++ s))) ∧
    ((∀ i, i < 12 → c.verify_factor_poll user.id activation.id i = "pending") →
      push_authenticate c username factor_id =
        .error (.TimeOutError "Push verification timed out")) := by
  have ha60 : c.activate_factor user.id fid (some 60) = some activation := ha
  have hbody : push_authenticate c username factor_id =
      push_poll_loop c user.id activation.id 60 0 0 := by
    simp [push_authenticate, hu, hf, activate_factor, ha60, bind, Except.bind,
      PUSH_VERIFICATION_POLL_TIMEOUT]
  refine ⟨fun N hN hp hN1 => ?_, fun N hN hp hN1 => ?_, fun N s hN hp hN1 h1 h2 h3 => ?_,
    fun hp => ?_⟩
  · rw [hbody, push_poll_loop_skip_pending c user.id activation.id N 0 0
      (fun i hi => by simpa using hp i hi) (by omega)]
    rw [push_poll_loop]
    simp [show 5 * N < 60 from by omega, hN1]
  · rw [hbody, push_poll_loop_skip_pending c user.id activation.id N 0 0
      (fun i hi => by simpa using hp i hi) (by omega)]
    rw [push_poll_loop]
    simp [show 5 * N < 60 from by omega, hN1]
  · rw [hbody, push_poll_loop_skip_pending c user.id activation.id N 0 0
      (fun i hi => by simpa using hp i hi) (by omega)]
    rw [push_poll_loop]
    simp [show 5 * N < 60 from by omega, hN1, h1, h2, h3]
  · rw [hbody, push_poll_loop_skip_pending c user.id activation.id 12 0 0
      (fun i hi => by simpa using hp i hi) (by omega)]
    rw [push_poll_loop]
    simp

/-- C2 witness: on `clientOk` (user 42, default factor 9, activation 1000)
scripted four ways — two `pending` answers then `accepted`; immediate
`rejected`; an unrecognized status; all-`pending` — push verification
returns `true`, returns `false`, fails `APIResponseError`, and fails
`TimeOutError` respectively. -/
theorem C2_push_authenticate_witness :
    push_authenticate (clientOk true (fun i => if i < 2 then "pending" else "accepted"))
      "alice" none = .ok true ∧
    push_authenticate (clientOk true (fun _ => "rejected")) "alice" none = .ok false ∧
    push_authenticate (clientOk true (fun _ => "bogus")) "alice" none =
      .error (.APIResponseError ("Push verification status not recognized: " ++ "bogus")) ∧
    push_authenticate (clientOk true (fun _ => "pending")) "alice" none =
      .error (.TimeOutError "Push verification timed out") :=
  ⟨(C2_push_authenticate (clientOk true (fun i => if i < 2 then "pending" else "accepted"))
      "alice" none ⟨42⟩ 9 ⟨1000⟩ rfl rfl rfl).1 2 (by omega)
      (fun i hi => by simp [clientOk, mkClient, hi]) (by simp [clientOk, mkClient]),
   (C2_push_authenticate (clientOk true (fun _ => "rejected"))
      "alice" none ⟨42⟩ 9 ⟨1000⟩ rfl rfl rfl).2.1 0 (by omega)
      (fun i hi => by omega) rfl,
   (C2_push_authenticate (clientOk true (fun _ => "bogus"))
      "alice" none ⟨42⟩ 9 ⟨1000⟩ rfl rfl rfl).2.2.1 0 "bogus"
      (by omega) (fun i hi => by omega) rfl (by decide) (by decide) (by decide),
   (C2_push_authenticate (clientOk true (fun _ => "pending"))
      "alice" none ⟨42⟩ 9 ⟨1000⟩ rfl rfl rfl).2.2.2
      (fun i _ => rfl)⟩

/-- The fresh session state: flags false, no factors, no selection, empty
key/value store. -/
def st0 : PluginState := ⟨false, [], none, []⟩

/-- C1 counterexample: with a client whose user lookup matches nobody, the
OTP turn raises `UserNotFound` inside the dialogue and the top-level catch
denies with the source's literal "An error occured" — which is not the
claimed string "An error occurred". -/
theorem C1_counterexample :
    (do_authenticate_body true "ssh" clientNoUser "alice" (some "1234") st0).1 =
      .error (.UserNotFound "No user found for user: alice based on attribute: username") ∧
    (do_authenticate true "ssh" clientNoUser "alice" (some "1234") st0).1 =
      .deny "An error occured" ∧
    (do_authenticate true "ssh" clientNoUser "alice" (some "1234") st0).1 ≠
      .deny "An error occurred" :=
  ⟨rfl, rfl, by decide⟩

/-- C1 (amended): any exception raised during the dialogue steps — the
Authenticator's errors, `Timeout` included — is caught at the top level and
converted to a deny whose reason is exactly the constant "An error occured"
(as the source spells it), independent of the error, so the underlying
error text never reaches the decision. -/
theorem C1_generic_deny (factor_selection_enabled : Bool) (protocol : String)
    (c : OneLoginClient) (mfa_identity : String) (mfa_password : Option String)
    (st : PluginState) (e : PluginError)
    (h : (do_authenticate_body factor_selection_enabled protocol c mfa_identity
      mfa_password st).1 = .error e) :
    (do_authenticate factor_selection_enabled protocol c mfa_identity
      mfa_password st).1 = .deny "An error occured" := by
  rcases hb : do_authenticate_body factor_selection_enabled protocol c mfa_identity
    mfa_password st with ⟨r, st2⟩
  rw [hb] at h
  simp only at h
  subst h
  simp [do_authenticate, hb]

/-- C1 witness: the generic deny at a concrete erroring turn. -/
theorem C1_generic_deny_witness :
    (do_authenticate true "ssh" clientNoUser "bob" (some "1234") st0).1 =
      .deny "An error occured" :=
  C1_generic_deny true "ssh" clientNoUser "bob" (some "1234") st0
    (.UserNotFound "No user found for user: bob based on attribute: username") rfl

/-- C8: with no selection in progress, the reserved credential "!select"
denies with "Factor selection not available" when the configuration flag is
off, with "Factor selection not supported" when the protocol is outside the
allowlist, with "No factors found" when the user has zero enrolled factors,
and otherwise stores the (id, displayName) factor list, sets the in-progress
flag and emits the need-more-input selection prompt. -/
theorem C8_select_command (factor_selection_enabled : Bool) (protocol : String)
    (c : OneLoginClient) (mfa_identity : String) (st : PluginState)
    (hip : st.factor_selection_in_progress = false) :
    (factor_selection_enabled = false →
      do_authenticate factor_selection_enabled protocol c mfa_identity
        (some "!select") st = (.deny "Factor selection not available", st)) ∧
    (factor_selection_enabled = true →
      protocol ∉ FACTOR_SELECTION_SUPPORTED_PROTOCOLS →
      do_authenticate factor_selection_enabled protocol c mfa_identity
        (some "!select") st = (.deny "Factor selection not supported", st)) ∧
    (factor_selection_enabled = true →
      protocol ∈ FACTOR_SELECTION_SUPPORTED_PROTOCOLS →
      get_enrolled_factors c mfa_identity = .ok [] →
      do_authenticate factor_selection_enabled protocol c mfa_identity
        (some "!select") st = (.deny "No factors found", st)) ∧
    (∀ factors, factors ≠ [] → factor_selection_enabled = true →
      protocol ∈ FACTOR_SELECTION_SUPPORTED_PROTOCOLS →
      get_enrolled_factors c mfa_identity = .ok factors →
      do_authenticate factor_selection_enabled protocol c mfa_identity
        (some "!select") st =
        (.need_info
          (factor_selection_prompt (factors.map (fun f => (f.id, f.user_display_name))))
          "user_factor_selection",
         { st with
            enrolled_factors := factors.map (fun f => (f.id, f.user_display_name)),
            factor_selection_in_progress := true })) := by
  refine ⟨fun hen => ?_, fun hen hproto => ?_, fun hen hproto hfs => ?_,
    fun factors hne hen hproto hfs => ?_⟩
  · simp [do_authenticate, do_authenticate_body, hip, truthy,
      run_factor_selection_command, hen, show "!select".isEmpty = false from rfl]
  · simp [do_authenticate, do_authenticate_body, hip, truthy,
      run_factor_selection_command, hen, hproto,
      show "!select".isEmpty = false from rfl]
  · simp [do_authenticate, do_authenticate_body, hip, truthy,
      run_factor_selection_command, hen, hproto, init_factor_selection, hfs,
      show "!select".isEmpty = false from rfl]
  · have hemp : factors.isEmpty = false := by
      cases factors with
      | nil => exact absurd rfl hne
      | cons a l => rfl
    simp [do_authenticate, do_authenticate_body, hip, truthy,
      run_factor_selection_command, hen, hproto, init_factor_selection, hfs, hemp,
      show "!select".isEmpty = false from rfl]

/-- C8 witness: the four "!select" outcomes at concrete inputs. -/
theorem C8_select_command_witness :
    do_authenticate false "ssh" (clientOk true (fun _ => "accepted")) "alice"
      (some "!select") st0 = (.deny "Factor selection not available", st0) ∧
    do_authenticate true "rdp" (clientOk true (fun _ => "accepted")) "alice"
      (some "!select") st0 = (.deny "Factor selection not supported", st0) ∧
    do_authenticate true "ssh" (mkClient (some [⟨42⟩]) (some []) true (some ⟨1000⟩)
      (fun _ => "accepted")) "alice" (some "!select") st0 = (.deny "No factors found", st0) ∧
    do_authenticate true "ssh" (clientOk true (fun _ => "accepted")) "alice"
      (some "!select") st0 =
      (.need_info "1) Device A\n2) Device B\nSelect a factor: " "user_factor_selection",
       ⟨true, [(7, "Device A"), (9, "Device B")], none, []⟩) :=
  ⟨(C8_select_command false "ssh" (clientOk true (fun _ => "accepted")) "alice" st0 rfl).1 rfl,
   (C8_select_command true "rdp" (clientOk true (fun _ => "accepted")) "alice" st0 rfl).2.1
      rfl (by decide),
   (C8_select_command true "ssh" (mkClient (some [⟨42⟩]) (some []) true (some ⟨1000⟩)
      (fun _ => "accepted")) "alice" st0 rfl).2.2.1 rfl (by decide) rfl,
   (C8_select_command true "ssh" (clientOk true (fun _ => "accepted")) "alice" st0 rfl).2.2.2
      twoDevices (by decide) rfl (by decide) rfl⟩

/-- `_finish_factor_selection` clears the in-progress flag first thing, so
every outcome leaves it cleared. -/
theorem finish_factor_selection_clears_flag (st : PluginState) :
    (finish_factor_selection st).2.factor_selection_in_progress = false := by
  rw [finish_factor_selection]
  split
  · rfl
  · dsimp only
    split
    · rfl
    · split
      · rfl
      · split <;> rfl

/-- While selection is in progress, the state `do_authenticate` returns is
the state `_finish_factor_selection` produced, whether or not an exception
escaped. -/
theorem do_authenticate_state_in_progress (factor_selection_enabled : Bool)
    (protocol : String) (c : OneLoginClient) (mfa_identity : String)
    (mfa_password : Option String) (st : PluginState)
    (hip : st.factor_selection_in_progress = true) :
    (do_authenticate factor_selection_enabled protocol c mfa_identity
      mfa_password st).2 = (finish_factor_selection st).2 := by
  simp only [do_authenticate, do_authenticate_body, hip, if_true]
  rcases finish_factor_selection st with ⟨r, st2⟩
  cases r <;> rfl

/-- Session state mid-selection: two enrolled factors, answer "2" buffered,
no "otp" entry. -/
def stSel : PluginState :=
  ⟨true, [(7, "Device A"), (9, "Device B")], none, [("user_factor_selection", "2")]⟩

/-- Session state mid-selection with both the answer "2" and a buffered
"otp" entry. -/
def stSelOtp : PluginState :=
  ⟨true, [(7, "Device A"), (9, "Device B")], none,
   [("user_factor_selection", "2"), ("otp", "123456")]⟩

/-- Session state mid-selection with an arbitrary buffered answer and no
"otp" entry. -/
def stSelAns (ans : String) : PluginState :=
  ⟨true, [(7, "Device A"), (9, "Device B")], none, [("user_factor_selection", ans)]⟩

/-- C3 counterexample: the valid selection "2" against
[(7, "Device A"), (9, "Device B")], with no previously-buffered "otp"
entry, does not emit a need-more-input decision — the unconditional pop
raises `KeyError` and the turn ends in the generic deny. -/
theorem C3_counterexample :
    (do_authenticate true "ssh" (clientOk true (fun _ => "accepted")) "alice"
      none stSel).1 = .deny "An error occured" ∧
    ((do_authenticate true "ssh" (clientOk true (fun _ => "accepted")) "alice"
      none stSel).1.isNeedInfo = false) :=
  ⟨rfl, rfl⟩

/-- C3 (amended): while selection is in progress the buffered answer is read
as a 1-based index into `enrolledFactors`.  A valid index stores the chosen
factor id and clears the in-progress flag, and — provided a buffered "otp"
entry exists — discards it and emits the need-more-input decision; a
missing, non-numeric, below-1 or out-of-range answer denies with
"Invalid selection"; and in every case the in-progress flag is cleared. -/
theorem C3_finish_selection (factor_selection_enabled : Bool) (protocol : String)
    (c : OneLoginClient) (mfa_identity : String) (mfa_password : Option String)
    (st : PluginState) (hip : st.factor_selection_in_progress = true) :
    (∀ s n fid name otp_val,
      st.key_value_pairs.lookup "user_factor_selection" = some s →
      pyInt s = some n → 1 ≤ n →
      st.enrolled_factors.get? (n - 1).toNat = some (fid, name) →
      st.key_value_pairs.lookup "otp" = some otp_val →
      do_authenticate factor_selection_enabled protocol c mfa_identity mfa_password st =
        (ask_mfa_password,
         { st with factor_selection_in_progress := false,
                   user_selected_factor_id := some fid,
                   key_value_pairs := st.key_value_pairs.eraseP (fun p => p.1 = "otp") }) ∧
      ask_mfa_password.isNeedInfo = true) ∧
    (st.key_value_pairs.lookup "user_factor_selection" = none →
      do_authenticate factor_selection_enabled protocol c mfa_identity mfa_password st =
        (.deny "Invalid selection", { st with factor_selection_in_progress := false })) ∧
    (∀ s, st.key_value_pairs.lookup "user_factor_selection" = some s →
      pyInt s = none →
      do_authenticate factor_selection_enabled protocol c mfa_identity mfa_password st =
        (.deny "Invalid selection", { st with factor_selection_in_progress := false })) ∧
    (∀ s n, st.key_value_pairs.lookup "user_factor_selection" = some s →
      pyInt s = some n → n < 1 →
      do_authenticate factor_selection_enabled protocol c mfa_identity mfa_password st =
        (.deny "Invalid selection", { st with factor_selection_in_progress := false })) ∧
    (∀ s n, st.key_value_pairs.lookup "user_factor_selection" = some s →
      pyInt s = some n → 1 ≤ n →
      st.enrolled_factors.get? (n - 1).toNat = none →
      do_authenticate factor_selection_enabled protocol c mfa_identity mfa_password st =
        (.deny "Invalid selection", { st with factor_selection_in_progress := false })) ∧
    ((do_authenticate factor_selection_enabled protocol c mfa_identity
        mfa_password st).2.factor_selection_in_progress = false) := by
  refine ⟨fun s n fid name otp_val hs hn h1 hf hotp => ?_, fun hs => ?_,
    fun s hs hn => ?_, fun s n hs hn h1 => ?_, fun s n hs hn h1 hf => ?_, ?_⟩
  · have hnn : ¬((n : Int) - 1 < 0) := by omega
    have hf2 : st.enrolled_factors[n.toNat - 1]? = some (fid, name) := by
      rw [← List.get?_eq_getElem?, show n.toNat - 1 = (n - 1).toNat from by omega]
      exact hf
    refine ⟨?_, rfl⟩
    simp [do_authenticate, do_authenticate_body, hip, finish_factor_selection,
      hs, hn, Option.bind, hnn, hf2, kvPop, hotp]
  · simp [do_authenticate, do_authenticate_body, hip, finish_factor_selection,
      hs, Option.bind]
  · simp [do_authenticate, do_authenticate_body, hip, finish_factor_selection,
      hs, hn, Option.bind]
  · have hnn : (n : Int) - 1 < 0 := by omega
    simp [do_authenticate, do_authenticate_body, hip, finish_factor_selection,
      hs, hn, Option.bind, hnn]
  · have hnn : ¬((n : Int) - 1 < 0) := by omega
    have hf2 : st.enrolled_factors[n.toNat - 1]? = none := by
      rw [← List.get?_eq_getElem?, show n.toNat - 1 = (n - 1).toNat from by omega]
      exact hf
    simp [do_authenticate, do_authenticate_body, hip, finish_factor_selection,
      hs, hn, Option.bind, hnn, hf2]
  · rw [do_authenticate_state_in_progress factor_selection_enabled protocol c
      mfa_identity mfa_password st hip]
    exact finish_factor_selection_clears_flag st

/-- C3 witness: selection "2" against the two-factor list with a buffered
"otp" stores factor id 9 and asks for more input; "0", "3" and "abc" deny
with "Invalid selection" and clear the flag. -/
theorem C3_finish_selection_witness :
    (do_authenticate true "ssh" (clientOk true (fun _ => "accepted")) "alice"
        none stSelOtp =
      (ask_mfa_password,
       ⟨false, [(7, "Device A"), (9, "Device B")], some 9,
        [("user_factor_selection", "2")]⟩) ∧
      ask_mfa_password.isNeedInfo = true) ∧
    do_authenticate true "ssh" (clientOk true (fun _ => "accepted")) "alice"
        none (stSelAns "0") =
      (.deny "Invalid selection",
       ⟨false, [(7, "Device A"), (9, "Device B")], none,
        [("user_factor_selection", "0")]⟩) ∧
    do_authenticate true "ssh" (clientOk true (fun _ => "accepted")) "alice"
        none (stSelAns "3") =
      (.deny "Invalid selection",
       ⟨false, [(7, "Device A"), (9, "Device B")], none,
        [("user_factor_selection", "3")]⟩) ∧
    do_authenticate true "ssh" (clientOk true (fun _ => "accepted")) "alice"
        none (stSelAns "abc") =
      (.deny "Invalid selection",
       ⟨false, [(7, "Device A"), (9, "Device B")], none,
        [("user_factor_selection", "abc")]⟩) :=
  ⟨(C3_finish_selection true "ssh" (clientOk true (fun _ => "accepted")) "alice"
      none stSelOtp rfl).1 "2" 2 9 "Device B" "123456" rfl rfl (by omega) rfl rfl,
   (C3_finish_selection true "ssh" (clientOk true (fun _ => "accepted")) "alice"
      none (stSelAns "0") rfl).2.2.2.1 "0" 0 rfl rfl (by omega),
   (C3_finish_selection true "ssh" (clientOk true (fun _ => "accepted")) "alice"
      none (stSelAns "3") rfl).2.2.2.2.1 "3" 3 rfl rfl (by omega) rfl,
   (C3_finish_selection true "ssh" (clientOk true (fun _ => "accepted")) "alice"
      none (stSelAns "abc") rfl).2.2.1 "abc" rfl rfl⟩

/-- C10: a valid factor-selection index with no buffered "otp" entry makes
the unconditional pop raise `KeyError` outside the selection's except
clause; the turn ends in the generic top-level deny instead of the
need-more-input decision, while the selected factor id has already been
stored and the in-progress flag cleared. -/
theorem C10_missing_otp_keyerror (factor_selection_enabled : Bool) (protocol : String)
    (c : OneLoginClient) (mfa_identity : String) (mfa_password : Option String)
    (st : PluginState) (s : String) (n : Int) (fid : Nat) (name : String)
    (hip : st.factor_selection_in_progress = true)
    (hs : st.key_value_pairs.lookup "user_factor_selection" = some s)
    (hn : pyInt s = some n) (h1 : 1 ≤ n)
    (hf : st.enrolled_factors.get? (n - 1).toNat = some (fid, name))
    (hotp : st.key_value_pairs.lookup "otp" = none) :
    (do_authenticate_body factor_selection_enabled protocol c mfa_identity
        mfa_password st).1 = .error (.KeyError "otp") ∧
    do_authenticate factor_selection_enabled protocol c mfa_identity mfa_password st =
      (.deny "An error occured",
       { st with factor_selection_in_progress := false,
                 user_selected_factor_id := some fid }) ∧
    ((do_authenticate factor_selection_enabled protocol c mfa_identity
        mfa_password st).1.isNeedInfo = false) := by
  have hnn : ¬((n : Int) - 1 < 0) := by omega
  have hf2 : st.enrolled_factors[n.toNat - 1]? = some (fid, name) := by
    rw [← List.get?_eq_getElem?, show n.toNat - 1 = (n - 1).toNat from by omega]
    exact hf
  have hbody : do_authenticate_body factor_selection_enabled protocol c mfa_identity
      mfa_password st =
      (.error (.KeyError "otp"),
       { st with factor_selection_in_progress := false,
                 user_selected_factor_id := some fid }) := by
    simp [do_authenticate_body, hip, finish_factor_selection, hs, hn, Option.bind,
      hnn, hf2, kvPop, hotp]
  refine ⟨by rw [hbody], ?_, ?_⟩
  · simp [do_authenticate, hbody]
  · simp [do_authenticate, hbody, AAResponse.isNeedInfo]

/-- C10 witness: the concrete mid-selection state with answer "2" and no
buffered "otp" ends in the generic deny with factor id 9 stored. -/
theorem C10_missing_otp_keyerror_witness :
    do_authenticate true "ssh" (clientOk true (fun _ => "accepted")) "alice"
        none stSel =
      (.deny "An error occured",
       ⟨false, [(7, "Device A"), (9, "Device B")], some 9,
        [("user_factor_selection", "2")]⟩) :=
  (C10_missing_otp_keyerror true "ssh" (clientOk true (fun _ => "accepted")) "alice"
    none stSel "2" 2 9 "Device B" rfl rfl rfl (by omega) rfl rfl).2.1

end OneLogin

